import Mathlib

/-!
Verification of the energy-price aggregation backend (src/server.js) and the
client-side projection calculator (src/unnamed/part_000).

Numbers are modelled as exact rationals (ℚ); JavaScript timestamps as Int
milliseconds; JSON fields that may be missing as Option; a network fetch whose
request or JSON parse throws as the FetchOutcome.err case.  Every adapter is a
total Lean function, mirroring the source's catch-all error handling.
-/

namespace EnergyApp

/-! ### Cache (src/server.js lines 27-41) -/

/-- CACHE_TTL = 5 * 60 * 1000 (5-minute TTL in milliseconds). -/
def CACHE_TTL : Int := 5 * 60 * 1000

/-- One entry of the cache Map: `{ data, timestamp }`. -/
structure CacheItem (α : Type) where
  data : α
  timestamp : Int
deriving DecidableEq

/-- The in-memory cache Map, modelled as an association list. -/
abbrev Cache (α : Type) := List (String × CacheItem α)

/-- Map.get: first binding for the key wins. -/
def cacheFind {α : Type} (cache : Cache α) (key : String) : Option (CacheItem α) :=
  match cache with
  | [] => none
  | (k, item) :: rest => if k = key then some item else cacheFind rest key

/-- getCached(key): returns the payload only when the entry is younger than
CACHE_TTL; the cache itself is returned unchanged because the source never
deletes an expired entry (lazy expiry). -/
def getCached {α : Type} (cache : Cache α) (now : Int) (key : String) :
    Option α × Cache α :=
  match cacheFind cache key with
  | some item =>
    if now - item.timestamp < CACHE_TTL then (some item.data, cache) else (none, cache)
  | none => (none, cache)

/-- setCache(key, data): cache.set(key, \x7b data, timestamp: Date.now() \x7d).
Map.set overwrites the binding; prepending keeps that observable behaviour
under cacheFind's first-match rule. -/
def setCache {α : Type} (cache : Cache α) (now : Int) (key : String) (data : α) :
    Cache α :=
  (key, ⟨data, now⟩) :: cache

/-! ### Common adapter result shape -/

/-- The normalized `{value, date, source}` record produced by the adapters. -/
structure PricePoint where
  value : ℚ
  date : String
  source : String
deriving DecidableEq

/-- Outcome of one outbound fetch: `err` covers a network failure or a JSON
body that fails to parse (both throw and are caught); `ok` carries the parsed
payload, whose own fields may still be missing. -/
inductive FetchOutcome (α : Type) where
  | err : FetchOutcome α
  | ok : α → FetchOutcome α

/-! ### EIA adapter (src/server.js lines 45-83) -/

/-- One element of `data.response.data`. -/
structure EIAObs where
  value : ℚ
  period : String
deriving DecidableEq

/-- Parsed EIA JSON body: `responseData` stands for `data.response?.data`
(`none` when either level is missing, i.e. a malformed response). -/
structure EIAPayload where
  responseData : Option (List EIAObs)

/-- The keys of the `endpoints` table inside fetchEIAData. -/
def eiaEndpoints : List String := ["PET.RWTC.D", "NG.RNGWHHD.D", "COAL.PRICE"]

/-- fetchEIAData(series).  Result triple: the adapter's return value, whether
an outbound call was issued, and the cache afterwards. -/
def fetchEIAData (apiKey : Option String) (cache : Cache PricePoint) (now : Int)
    (net : FetchOutcome EIAPayload) (series : String) :
    Option PricePoint × Bool × Cache PricePoint :=
  match apiKey with
  | none => (none, false, cache)
  | some _ =>
    let cacheKey := "eia_" ++ series
    match (getCached cache now cacheKey).1 with
    | some cached => (some cached, false, cache)
    | none =>
      if series ∈ eiaEndpoints then
        match net with
        | .err => (none, true, cache)
        | .ok payload =>
          match payload.responseData with
          | some (obs :: _) =>
            let result : PricePoint := ⟨obs.value, obs.period, "EIA"⟩
            (some result, true, setCache cache now cacheKey result)
          | some [] => (none, true, cache)
          | none => (none, true, cache)
      else (none, false, cache)

/-! ### FRED adapter (src/server.js lines 87-116) -/

/-- One element of `data.observations`. -/
structure FREDObs where
  value : ℚ
  date : String
deriving DecidableEq

/-- Parsed FRED JSON body: `observations` is `none` when the field is missing. -/
structure FREDPayload where
  observations : Option (List FREDObs)

/-- fetchFREDData(series). -/
def fetchFREDData (apiKey : Option String) (cache : Cache PricePoint) (now : Int)
    (net : FetchOutcome FREDPayload) (series : String) :
    Option PricePoint × Bool × Cache PricePoint :=
  match apiKey with
  | none => (none, false, cache)
  | some _ =>
    let cacheKey := "fred_" ++ series
    match (getCached cache now cacheKey).1 with
    | some cached => (some cached, false, cache)
    | none =>
      match net with
      | .err => (none, true, cache)
      | .ok payload =>
        match payload.observations with
        | some (obs :: _) =>
          let result : PricePoint := ⟨obs.value, obs.date, "FRED"⟩
          (some result, true, setCache cache now cacheKey result)
        | some [] => (none, true, cache)
        | none => (none, true, cache)

/-! ### OWID adapter (src/server.js lines 120-151) -/

/-- The USA record for the most recent year with data, as selected by
`Object.keys(data.USA).filter(...).sort().reverse()` and
`data.USA[latestYear] || data.USA`.  Each generation-technology field may be
missing from the record. -/
structure OwidRecord where
  solar_electricity : Option ℚ
  wind_electricity : Option ℚ
  nuclear_electricity : Option ℚ
deriving DecidableEq

/-- `data.USA` together with the selected `latestYear` (none when the USA
object has no numeric year keys). -/
structure OwidUSA where
  latestYear : Option String
  record : OwidRecord

/-- Parsed OWID JSON body: `usa` is `none` when `data.USA` is missing. -/
structure OwidPayload where
  usa : Option OwidUSA

/-- The OWID adapter's multi-field result. -/
structure OwidResult where
  solar_lcoe : ℚ
  wind_lcoe : ℚ
  nuclear_lcoe : ℚ
  date : String
  source : String
deriving DecidableEq

/-- JavaScript `x || d` for x a number that may be undefined: 0 is falsy, so a
present zero is replaced by the default just like a missing value. -/
def jsOr (x : Option ℚ) (d : ℚ) : ℚ :=
  match x with
  | some v => if v = 0 then d else v
  | none => d

/-- JavaScript `s || d` for s a string that may be undefined. -/
def jsOrStr (x : Option String) (d : String) : String :=
  match x with
  | some s => if s = "" then d else s
  | none => d

/-- fetchOWIDData(indicator); `currentYear` stands for
`new Date().getFullYear().toString()`.  No API key is required. -/
def fetchOWIDData (cache : Cache OwidResult) (now : Int)
    (net : FetchOutcome OwidPayload) (indicator : String) (currentYear : String) :
    Option OwidResult × Bool × Cache OwidResult :=
  let cacheKey := "owid_" ++ indicator
  match (getCached cache now cacheKey).1 with
  | some cached => (some cached, false, cache)
  | none =>
    match net with
    | .err => (none, true, cache)
    | .ok payload =>
      match payload.usa with
      | some usa =>
        let result : OwidResult :=
          ⟨jsOr usa.record.solar_electricity 28,
           jsOr usa.record.wind_electricity 31,
           jsOr usa.record.nuclear_electricity 33,
           jsOrStr usa.latestYear currentYear,
           "Our World in Data"⟩
        (some result, true, setCache cache now cacheKey result)
      | none => (none, true, cache)

/-! ### Yahoo Finance adapter (src/server.js lines 154-182) -/

/-- The `meta` object of `data.chart.result[0]`. -/
structure YahooMeta where
  regularMarketPrice : ℚ
deriving DecidableEq

/-- Parsed Yahoo JSON body: `firstMeta` stands for
`data.chart?.result?.[0]?.meta`; any missing level (or a TypeError caught by
the surrounding try) collapses to `none`. -/
structure YahooPayload where
  firstMeta : Option YahooMeta

/-- fetchYahooFinance(symbol); `today` stands for
`new Date().toISOString().split('T')[0]`.  No API key is required. -/
def fetchYahooFinance (cache : Cache PricePoint) (now : Int)
    (net : FetchOutcome YahooPayload) (symbol : String) (today : String) :
    Option PricePoint × Bool × Cache PricePoint :=
  let cacheKey := "yahoo_" ++ symbol
  match (getCached cache now cacheKey).1 with
  | some cached => (some cached, false, cache)
  | none =>
    match net with
    | .err => (none, true, cache)
    | .ok payload =>
      match payload.firstMeta with
      | some meta =>
        let result : PricePoint := ⟨meta.regularMarketPrice, today, "Yahoo Finance"⟩
        (some result, true, setCache cache now cacheKey result)
      | none => (none, true, cache)

/-! ### Fallback table (src/server.js lines 185-203) -/

/-- One row of the server's fallbackPrices table:
(us, world, usUnit, worldUnit). -/
def fallbackPricesLookup (source : String) : Option (ℚ × ℚ × String × String) :=
  if source = "oil" then some (74.50, 78.80, "/barrel", "/barrel")
  else if source = "natural-gas" then some (3.15, 12.40, "/MMBtu", "/MMBtu")
  else if source = "nuclear" then some (31.00, 35.00, "/MWh", "/MWh")
  else if source = "solar" then some (28.00, 32.00, "/MWh", "/MWh")
  else if source = "renewables" then some (31.00, 36.00, "/MWh", "/MWh")
  else if source = "coal" then some (140.00, 120.00, "/short ton", "/metric ton")
  else none

/-- The object returned by getFallbackData: spreading
`fallbackPrices[source]` over the fixed fields.  For an unrecognized key the
spread of `undefined` contributes nothing, so the four price/unit fields are
`none` (JavaScript `undefined`). -/
structure FallbackData where
  us : Option ℚ
  world : Option ℚ
  usUnit : Option String
  worldUnit : Option String
  date : String
  source : String
  isFallback : Bool

/-- getFallbackData(source); `now` stands for
`new Date().toISOString().split('T')[0]`. -/
def getFallbackData (source : String) (now : String) : FallbackData :=
  match fallbackPricesLookup source with
  | some (us, world, usUnit, worldUnit) =>
    ⟨some us, some world, some usUnit, some worldUnit, now,
     "Estimated (API keys not configured)", true⟩
  | none =>
    ⟨none, none, none, none, now, "Estimated (API keys not configured)", true⟩

/-! ### The /api/prices/:source handler (src/server.js lines 208-349)

The handler awaits the adapters relevant to the requested commodity and then
branches on whether each returned a value.  `Outcomes` records those adapter
return values; the aggregation policy itself is the pure function below. -/

/-- Return values of the adapter calls the handler can make for a request. -/
structure Outcomes where
  eiaOil : Option PricePoint
  yahooOil : Option PricePoint
  yahooBrent : Option PricePoint
  eiaNatGas : Option PricePoint
  yahooNatGas : Option PricePoint
  owidNuclear : Option OwidResult
  fredUranium : Option PricePoint
  owidSolar : Option OwidResult
  owidWind : Option OwidResult
  eiaCoal : Option PricePoint
  yahooCoal : Option PricePoint

/-- The switch statement of the handler: computes (usPrice, worldPrice,
sources).  Each case enumerates the source's if/else-if branches over the
presence of the adapter results, in the order the handler tests and pushes
them. -/
def resolveSwitch (source : String) (o : Outcomes) :
    Option PricePoint × Option PricePoint × List String :=
  if source = "oil" then
    -- us: EIA else Yahoo (CL=F); world: Yahoo Brent (BZ=F)
    match o.eiaOil, o.yahooOil, o.yahooBrent with
    | some r, _, some b => (some r, some b, ["EIA", "Yahoo Finance (Brent)"])
    | some r, _, none => (some r, none, ["EIA"])
    | none, some r, some b => (some r, some b, ["Yahoo Finance", "Yahoo Finance (Brent)"])
    | none, some r, none => (some r, none, ["Yahoo Finance"])
    | none, none, some b => (none, some b, ["Yahoo Finance (Brent)"])
    | none, none, none => (none, none, [])
  else if source = "natural-gas" then
    -- us: EIA else Yahoo (NG=F); world: usPrice.value * 3.5 when us resolved
    match o.eiaNatGas, o.yahooNatGas with
    | some r, _ =>
      (some r, some ⟨r.value * 3.5, r.date, "Calculated from US price"⟩, ["EIA"])
    | none, some r =>
      (some r, some ⟨r.value * 3.5, r.date, "Calculated from US price"⟩, ["Yahoo Finance"])
    | none, none => (none, none, [])
  else if source = "nuclear" then
    -- us/world from the OWID nuclear LCOE (world = us * 1.1); a successful
    -- FRED uranium fetch only appends to sources
    match o.owidNuclear, o.fredUranium with
    | some w, some _ =>
      (some ⟨w.nuclear_lcoe, w.date, w.source⟩,
       some ⟨w.nuclear_lcoe * 1.1, w.date, w.source⟩,
       ["Our World in Data", "FRED"])
    | some w, none =>
      (some ⟨w.nuclear_lcoe, w.date, w.source⟩,
       some ⟨w.nuclear_lcoe * 1.1, w.date, w.source⟩,
       ["Our World in Data"])
    | none, some _ => (none, none, ["FRED"])
    | none, none => (none, none, [])
  else if source = "solar" then
    -- us/world from the OWID solar LCOE (world = us * 1.15)
    match o.owidSolar with
    | some w =>
      (some ⟨w.solar_lcoe, w.date, w.source⟩,
       some ⟨w.solar_lcoe * 1.15, w.date, w.source⟩,
       ["Our World in Data"])
    | none => (none, none, [])
  else if source = "renewables" then
    -- us/world from the OWID wind LCOE (world = us * 1.15)
    match o.owidWind with
    | some w =>
      (some ⟨w.wind_lcoe, w.date, w.source⟩,
       some ⟨w.wind_lcoe * 1.15, w.date, w.source⟩,
       ["Our World in Data"])
    | none => (none, none, [])
  else if source = "coal" then
    -- us: EIA; world: Yahoo (MTF=F)
    match o.eiaCoal, o.yahooCoal with
    | some r, some y => (some r, some y, ["EIA", "Yahoo Finance"])
    | some r, none => (some r, none, ["EIA"])
    | none, some y => (none, some y, ["Yahoo Finance"])
    | none, none => (none, none, [])
  else (none, none, [])

/-- One slot of the JSON response; `value` is Option because an unrecognized
key leaves the fallback's price fields undefined. -/
structure Slot where
  value : Option ℚ
  date : String
  source : String
deriving DecidableEq

/-- The JSON response body of GET /api/prices/:source (timestamp omitted). -/
structure Resp where
  source : String
  us : Slot
  world : Slot
  unitsUs : Option String
  unitsWorld : Option String
  dataSources : List String
  isFallback : Bool
deriving DecidableEq

/-- The response construction of the handler (src/server.js lines 316-330):
`usPrice || fallback slot`, `worldPrice || fallback slot`, units from the
fallback table, `sources.length > 0 ? sources : ['Fallback estimates']`, and
`isFallback: !usPrice && !worldPrice`. -/
def resolvePrices (source : String) (o : Outcomes) (now : String) : Resp :=
  let t := resolveSwitch source o
  let fallback := getFallbackData source now
  { source := source
    us :=
      match t.1 with
      | some p => ⟨some p.value, p.date, p.source⟩
      | none => ⟨fallback.us, fallback.date, fallback.source⟩
    world :=
      match t.2.1 with
      | some p => ⟨some p.value, p.date, p.source⟩
      | none => ⟨fallback.world, fallback.date, fallback.source⟩
    unitsUs := fallback.usUnit
    unitsWorld := fallback.worldUnit
    dataSources := if t.2.2.isEmpty then ["Fallback estimates"] else t.2.2
    isFallback := t.1.isNone && t.2.1.isNone }

/-! ### Client-side fallback (src/unnamed/part_000 lines 358-380) -/

/-- The frontend's fallbackPrices table inside updateWithFallbackData. -/
def clientFallbackLookup (source : String) : Option (ℚ × ℚ) :=
  if source = "oil" then some (74.50, 78.80)
  else if source = "natural-gas" then some (3.15, 12.40)
  else if source = "nuclear" then some (31.00, 35.00)
  else if source = "solar" then some (28.00, 32.00)
  else if source = "renewables" then some (31.00, 36.00)
  else if source = "coal" then some (140.00, 120.00)
  else none

/-- updateWithFallbackData(source): the (us, world) slots it displays, built
from `fallbackPrices[source] || fallbackPrices.oil` with source label
'Fallback'. -/
def updateWithFallbackData (source : String) (now : String) : Slot × Slot :=
  let prices := (clientFallbackLookup source).getD (74.50, 78.80)
  (⟨some prices.1, now, "Fallback"⟩, ⟨some prices.2, now, "Fallback"⟩)

/-! ### Projection calculator (src/unnamed/part_000 lines 404-417, 466-478) -/

/-- CONFIG.sources[key].elasticity. -/
def configElasticity (source : String) : Option ℚ :=
  if source = "oil" then some 0.4
  else if source = "natural-gas" then some 0.25
  else if source = "nuclear" then some 0.15
  else if source = "solar" then some 0.1
  else if source = "renewables" then some 0.12
  else if source = "coal" then some 0.35
  else none

/-- getSupplyConstraintFactor(source): `factors[source] || 1.0`. -/
def getSupplyConstraintFactor (source : String) : ℚ :=
  jsOr
    (if source = "oil" then some 1.2
     else if source = "natural-gas" then some 1.1
     else if source = "nuclear" then some 0.8
     else if source = "solar" then some 0.6
     else if source = "renewables" then some 0.7
     else if source = "coal" then some 1.0
     else none)
    1.0

/-- The arithmetic core of calculateProjection(region):
priceIncrease = (usageIncrease / 100) * (1 / elasticity) * supplyConstraintFactor * 100;
newPrice = currentPrice * (1 + priceIncrease / 100). -/
def calculateProjection (currentPrice usageIncrease elasticity
    supplyConstraintFactor : ℚ) : ℚ × ℚ :=
  let priceIncrease := usageIncrease / 100 * (1 / elasticity) * supplyConstraintFactor * 100
  let newPrice := currentPrice * (1 + priceIncrease / 100)
  (priceIncrease, newPrice)

/-! ### Spec-side notions and sample data used by the claims -/

/-- Spec-side notion for the aggregator claims: the source labels actually
used to fill the us or world slot of the quote, i.e. the label recorded for an
adapter whose result appears in a slot (for natural gas the world slot is
derived from the same adapter's US result; an adapter filling both slots is
listed once), in the order the handler records labels. -/
def contributedSources (source : String) (o : Outcomes) : List String :=
  if source = "oil" then
    (match o.eiaOil, o.yahooOil with
     | some _, _ => ["EIA"]
     | none, some _ => ["Yahoo Finance"]
     | none, none => []) ++
    (match o.yahooBrent with
     | some _ => ["Yahoo Finance (Brent)"]
     | none => [])
  else if source = "natural-gas" then
    match o.eiaNatGas, o.yahooNatGas with
    | some _, _ => ["EIA"]
    | none, some _ => ["Yahoo Finance"]
    | none, none => []
  else if source = "nuclear" then
    match o.owidNuclear with
    | some _ => ["Our World in Data"]
    | none => []
  else if source = "solar" then
    match o.owidSolar with
    | some _ => ["Our World in Data"]
    | none => []
  else if source = "renewables" then
    match o.owidWind with
    | some _ => ["Our World in Data"]
    | none => []
  else if source = "coal" then
    (match o.eiaCoal with
     | some _ => ["EIA"]
     | none => []) ++
    (match o.yahooCoal with
     | some _ => ["Yahoo Finance"]
     | none => [])
  else []

/-- What the handler actually lists in dataSources before the nonempty check:
the contributing labels, plus 'FRED' in the nuclear case whenever the FRED
uranium fetch succeeded (even though that value fills no slot). -/
def listedSources (source : String) (o : Outcomes) : List String :=
  contributedSources source o ++
    (if source = "nuclear" then
      (match o.fredUranium with
       | some _ => ["FRED"]
       | none => [])
     else [])

/-- All adapters returned absent. -/
def absentOutcomes : Outcomes :=
  ⟨none, none, none, none, none, none, none, none, none, none, none⟩

/-- Sample EIA natural-gas result. -/
def gasPoint : PricePoint := ⟨3, "2026-01-02", "EIA"⟩

/-- Natural-gas scenario: only the EIA adapter succeeds. -/
def gasOutcomes : Outcomes := { absentOutcomes with eiaNatGas := some gasPoint }

/-- Sample OWID result. -/
def owidSample : OwidResult := ⟨28, 31, 33, "2024", "Our World in Data"⟩

/-- Nuclear scenario: the OWID adapter succeeds, FRED does not. -/
def nuclearOutcomes : Outcomes := { absentOutcomes with owidNuclear := some owidSample }

/-- Nuclear scenario: only the FRED uranium fetch succeeds. -/
def fredOnlyOutcomes : Outcomes :=
  { absentOutcomes with fredUranium := some ⟨95, "2026-01-02", "FRED"⟩ }

/-- Oil scenario: only the Brent (world-slot) fetch succeeds. -/
def brentOnlyOutcomes : Outcomes :=
  { absentOutcomes with yahooBrent := some ⟨80, "2026-01-02", "Yahoo Finance"⟩ }

/-- OWID record whose three generation fields are all present and zero. -/
def zeroRecord : OwidRecord := ⟨some 0, some 0, some 0⟩

/-- OWID payload containing the all-zero USA record. -/
def zeroPayload : OwidPayload := ⟨some ⟨some "2023", zeroRecord⟩⟩

/-- OWID record with a present nonzero solar value, missing wind value and
present zero nuclear value. -/
def mixedRecord : OwidRecord := ⟨some 25, none, some 0⟩

/-- OWID USA object holding mixedRecord for year 2023. -/
def mixedUSA : OwidUSA := ⟨some "2023", mixedRecord⟩

/-- OWID payload containing mixedUSA. -/
def mixedPayload : OwidPayload := ⟨some mixedUSA⟩

/-! ### Helper lemmas -/

/-- Unfolding of the switch at the natural-gas case. -/
theorem resolveSwitch_gas_eq (o : Outcomes) :
    resolveSwitch "natural-gas" o =
      match o.eiaNatGas, o.yahooNatGas with
      | some r, _ =>
        (some r, some ⟨r.value * 3.5, r.date, "Calculated from US price"⟩, ["EIA"])
      | none, some r =>
        (some r, some ⟨r.value * 3.5, r.date, "Calculated from US price"⟩, ["Yahoo Finance"])
      | none, none => (none, none, []) := rfl

/-- Unfolding of the switch at the nuclear case. -/
theorem resolveSwitch_nuclear_eq (o : Outcomes) :
    resolveSwitch "nuclear" o =
      match o.owidNuclear, o.fredUranium with
      | some w, some _ =>
        (some ⟨w.nuclear_lcoe, w.date, w.source⟩,
         some ⟨w.nuclear_lcoe * 1.1, w.date, w.source⟩,
         ["Our World in Data", "FRED"])
      | some w, none =>
        (some ⟨w.nuclear_lcoe, w.date, w.source⟩,
         some ⟨w.nuclear_lcoe * 1.1, w.date, w.source⟩,
         ["Our World in Data"])
      | none, some _ => (none, none, ["FRED"])
      | none, none => (none, none, []) := rfl

/-- Unfolding of the switch at the solar case. -/
theorem resolveSwitch_solar_eq (o : Outcomes) :
    resolveSwitch "solar" o =
      match o.owidSolar with
      | some w =>
        (some ⟨w.solar_lcoe, w.date, w.source⟩,
         some ⟨w.solar_lcoe * 1.15, w.date, w.source⟩,
         ["Our World in Data"])
      | none => (none, none, []) := rfl

/-- Unfolding of the switch at the renewables case. -/
theorem resolveSwitch_renewables_eq (o : Outcomes) :
    resolveSwitch "renewables" o =
      match o.owidWind with
      | some w =>
        (some ⟨w.wind_lcoe, w.date, w.source⟩,
         some ⟨w.wind_lcoe * 1.15, w.date, w.source⟩,
         ["Our World in Data"])
      | none => (none, none, []) := rfl

/-- With every adapter absent, every case of the switch resolves nothing. -/
theorem resolveSwitch_absent (source : String) :
    resolveSwitch source absentOutcomes = (none, none, []) := by
  unfold resolveSwitch
  split_ifs <;> rfl

/-- The us slot of the response copies a resolved US price point. -/
theorem resolvePrices_us_of_some (source : String) (o : Outcomes) (now : String)
    (p : PricePoint) (h : (resolveSwitch source o).1 = some p) :
    (resolvePrices source o now).us = ⟨some p.value, p.date, p.source⟩ := by
  simp only [resolvePrices, h]

/-- The world slot of the response copies a resolved world price point. -/
theorem resolvePrices_world_of_some (source : String) (o : Outcomes) (now : String)
    (p : PricePoint) (h : (resolveSwitch source o).2.1 = some p) :
    (resolvePrices source o now).world = ⟨some p.value, p.date, p.source⟩ := by
  simp only [resolvePrices, h]

/-- The switch's sources list is exactly listedSources. -/
theorem switch_sources_eq (source : String) (o : Outcomes) :
    (resolveSwitch source o).2.2 = listedSources source o := by
  obtain ⟨f1, f2, f3, f4, f5, f6, f7, f8, f9, f10, f11⟩ := o
  by_cases h1 : source = "oil"
  · subst h1; cases f1 <;> cases f2 <;> cases f3 <;> rfl
  by_cases h2 : source = "natural-gas"
  · subst h2; cases f4 <;> cases f5 <;> rfl
  by_cases h3 : source = "nuclear"
  · subst h3; cases f6 <;> cases f7 <;> rfl
  by_cases h4 : source = "solar"
  · subst h4; cases f8 <;> rfl
  by_cases h5 : source = "renewables"
  · subst h5; cases f9 <;> rfl
  by_cases h6 : source = "coal"
  · subst h6; cases f10 <;> cases f11 <;> rfl
  · simp [resolveSwitch, listedSources, contributedSources, h1, h2, h3, h4, h5, h6]

/-- Every contributing label appears in the switch's sources list. -/
theorem mem_contributed_mem_switch (source : String) (o : Outcomes)
    (l : String) (hl : l ∈ contributedSources source o) :
    l ∈ (resolveSwitch source o).2.2 := by
  rw [switch_sources_eq]
  exact List.mem_append_left _ hl

/-! ### C6: cache TTL -/

/-- C6: for every cache key and read time, getCached returns the stored
payload iff the entry is strictly younger than the 5-minute TTL; an entry at
or beyond the TTL is treated as absent, and the cache is not evicted. -/
theorem c6_cache_get_ttl {α : Type} (cache : Cache α) (now : Int) (key : String)
    (item : CacheItem α) (h : cacheFind cache key = some item) :
    ((getCached cache now key).1 = some item.data ↔
      now - item.timestamp < CACHE_TTL) ∧
    (¬ now - item.timestamp < CACHE_TTL → (getCached cache now key).1 = none) ∧
    (getCached cache now key).2 = cache := by
  unfold getCached
  rw [h]
  by_cases hlt : now - item.timestamp < CACHE_TTL
  · simp [hlt]
  · simp [hlt]

/-- Witness for C6 at a concrete one-entry cache. -/
theorem c6_cache_get_ttl_witness :
    cacheFind ([("k", ⟨(7 : ℚ), 0⟩)] : Cache ℚ) "k" = some ⟨(7 : ℚ), 0⟩ ∧
    ((getCached ([("k", ⟨(7 : ℚ), 0⟩)] : Cache ℚ) 1000 "k").1 = some (7 : ℚ) ↔
      (1000 : Int) - 0 < CACHE_TTL) :=
  ⟨rfl, (c6_cache_get_ttl [("k", ⟨(7 : ℚ), 0⟩)] 1000 "k" ⟨(7 : ℚ), 0⟩ rfl).1⟩

/-! ### C8: zero usage change -/

/-- C8: for every current price, positive elasticity and supply factor, a
projection with usage change 0 yields price change 0 and an unchanged price. -/
theorem c8_zero_usage_change (p e f : ℚ) (he : 0 < e) :
    calculateProjection p 0 e f = (0, p) := by
  simp [calculateProjection]

/-- Witness for C8 at p = 100, e = 1, f = 1. -/
theorem c8_zero_usage_change_witness :
    (0 : ℚ) < 1 ∧ calculateProjection 100 0 1 1 = (0, 100) :=
  ⟨by decide, c8_zero_usage_change 100 1 1 (by decide)⟩

/-! ### C9: oil example numbers -/

/-- C9: with the oil parameters (price 74.50, usage change 10, elasticity 0.4,
supply-constraint factor 1.2) the projection computes price change 30.0 and
new price 96.85 exactly (exact rational arithmetic). -/
theorem c9_oil_projection_example :
    configElasticity "oil" = some 0.4 ∧
    getSupplyConstraintFactor "oil" = 1.2 ∧
    calculateProjection 74.50 10 0.4 1.2 = (30, 96.85) := by
  refine ⟨rfl, ?_, ?_⟩
  · norm_num [getSupplyConstraintFactor, jsOr]
  · simp only [calculateProjection, Prod.mk.injEq]
    norm_num

/-! ### C10: OWID LCOE defaulting -/

/-- C10 (amended): when the OWID payload contains a USA record and the cache
misses, the adapter returns a result labeled 'Our World in Data' whose LCOE
fields are the record's values when present and nonzero, and the defaults
28 / 31 / 33 when the field is absent or zero (JavaScript falsiness); the
fields are never absent. -/
theorem c10_owid_lcoe_defaults (cache : Cache OwidResult) (now : Int)
    (payload : OwidPayload) (usa : OwidUSA) (indicator currentYear : String)
    (hmiss : (getCached cache now ("owid_" ++ indicator)).1 = none)
    (husa : payload.usa = some usa) :
    ∃ r : OwidResult,
      (fetchOWIDData cache now (.ok payload) indicator currentYear).1 = some r ∧
      r.source = "Our World in Data" ∧
      (∀ v : ℚ, usa.record.solar_electricity = some v → v ≠ 0 → r.solar_lcoe = v) ∧
      ((usa.record.solar_electricity = none ∨ usa.record.solar_electricity = some 0) →
        r.solar_lcoe = 28) ∧
      (∀ v : ℚ, usa.record.wind_electricity = some v → v ≠ 0 → r.wind_lcoe = v) ∧
      ((usa.record.wind_electricity = none ∨ usa.record.wind_electricity = some 0) →
        r.wind_lcoe = 31) ∧
      (∀ v : ℚ, usa.record.nuclear_electricity = some v → v ≠ 0 → r.nuclear_lcoe = v) ∧
      ((usa.record.nuclear_electricity = none ∨ usa.record.nuclear_electricity = some 0) →
        r.nuclear_lcoe = 33) := by
  refine ⟨⟨jsOr usa.record.solar_electricity 28, jsOr usa.record.wind_electricity 31,
          jsOr usa.record.nuclear_electricity 33, jsOrStr usa.latestYear currentYear,
          "Our World in Data"⟩, ?_, rfl, ?_, ?_, ?_, ?_, ?_, ?_⟩
  · simp only [fetchOWIDData]
    rw [hmiss, husa]
  · intro v hv hne
    simp [jsOr, hv, hne]
  · intro h
    rcases h with h | h <;> simp [jsOr, h]
  · intro v hv hne
    simp [jsOr, hv, hne]
  · intro h
    rcases h with h | h <;> simp [jsOr, h]
  · intro v hv hne
    simp [jsOr, hv, hne]
  · intro h
    rcases h with h | h <;> simp [jsOr, h]

/-- Witness for C10 with a record whose solar value is present and nonzero,
wind value missing and nuclear value present but zero. -/
theorem c10_owid_lcoe_defaults_witness :
    (getCached ([] : Cache OwidResult) 0 ("owid_" ++ "solar")).1 = none ∧
    mixedPayload.usa = some mixedUSA ∧
    ∃ r : OwidResult,
      (fetchOWIDData [] 0 (.ok mixedPayload) "solar" "2026").1 = some r ∧
      r.source = "Our World in Data" ∧
      (∀ v : ℚ, mixedUSA.record.solar_electricity = some v → v ≠ 0 → r.solar_lcoe = v) ∧
      ((mixedUSA.record.solar_electricity = none ∨
          mixedUSA.record.solar_electricity = some 0) → r.solar_lcoe = 28) ∧
      (∀ v : ℚ, mixedUSA.record.wind_electricity = some v → v ≠ 0 → r.wind_lcoe = v) ∧
      ((mixedUSA.record.wind_electricity = none ∨
          mixedUSA.record.wind_electricity = some 0) → r.wind_lcoe = 31) ∧
      (∀ v : ℚ, mixedUSA.record.nuclear_electricity = some v → v ≠ 0 → r.nuclear_lcoe = v) ∧
      ((mixedUSA.record.nuclear_electricity = none ∨
          mixedUSA.record.nuclear_electricity = some 0) → r.nuclear_lcoe = 33) :=
  ⟨rfl, rfl, c10_owid_lcoe_defaults [] 0 mixedPayload mixedUSA "solar" "2026" rfl rfl⟩

/-- C10 counterexample to the claim as stated: a USA record whose LCOE fields
are present with value 0 does not yield the record's values — the hard-coded
defaults replace them. -/
theorem c10_counterexample_present_zero :
    zeroPayload.usa = some ⟨some "2023", zeroRecord⟩ ∧
    zeroRecord.solar_electricity = some 0 ∧
    (fetchOWIDData [] 0 (.ok zeroPayload) "solar" "2026").1 =
      some ⟨28, 31, 33, "2023", "Our World in Data"⟩ ∧
    (28 : ℚ) ≠ 0 := by
  refine ⟨rfl, rfl, rfl, by norm_num⟩

/-! ### C1: all adapters absent -/

/-- C1 (amended): for every recognized commodity key, if every adapter
consulted returns absent, the resolved quote has isFallback = true, its us and
world values equal exactly the Fallback Table's entries for that key, and both
PricePoints carry the source label 'Estimated (API keys not configured)'
(not 'Fallback'). -/
theorem c1_all_absent_fallback_table (source : String) (now : String)
    (h : source ∈ ["oil", "natural-gas", "nuclear", "solar", "renewables", "coal"]) :
    (resolvePrices source absentOutcomes now).isFallback = true ∧
    (resolvePrices source absentOutcomes now).us.value =
      (fallbackPricesLookup source).map (fun e => e.1) ∧
    (resolvePrices source absentOutcomes now).world.value =
      (fallbackPricesLookup source).map (fun e => e.2.1) ∧
    (resolvePrices source absentOutcomes now).us.value.isSome = true ∧
    (resolvePrices source absentOutcomes now).us.source =
      "Estimated (API keys not configured)" ∧
    (resolvePrices source absentOutcomes now).world.source =
      "Estimated (API keys not configured)" := by
  simp only [List.mem_cons, List.not_mem_nil, or_false] at h
  rcases h with rfl | rfl | rfl | rfl | rfl | rfl <;>
    exact ⟨rfl, rfl, rfl, rfl, rfl, rfl⟩

/-- Witness for C1 at the oil key: the fallback values are 74.50 and 78.80. -/
theorem c1_all_absent_fallback_table_witness :
    ("oil" : String) ∈ ["oil", "natural-gas", "nuclear", "solar", "renewables", "coal"] ∧
    ((resolvePrices "oil" absentOutcomes "2026-10-12").isFallback = true ∧
     (resolvePrices "oil" absentOutcomes "2026-10-12").us.value =
       (fallbackPricesLookup "oil").map (fun e => e.1) ∧
     (resolvePrices "oil" absentOutcomes "2026-10-12").world.value =
       (fallbackPricesLookup "oil").map (fun e => e.2.1) ∧
     (resolvePrices "oil" absentOutcomes "2026-10-12").us.value.isSome = true ∧
     (resolvePrices "oil" absentOutcomes "2026-10-12").us.source =
       "Estimated (API keys not configured)" ∧
     (resolvePrices "oil" absentOutcomes "2026-10-12").world.source =
       "Estimated (API keys not configured)") :=
  ⟨by decide, c1_all_absent_fallback_table "oil" "2026-10-12" (by decide)⟩

/-- C1 counterexample to the claim as stated: on the all-absent path the
PricePoints carry the label 'Estimated (API keys not configured)', not
'Fallback'. -/
theorem c1_counterexample_source_label :
    (resolvePrices "oil" absentOutcomes "2026-10-12").us.source =
      "Estimated (API keys not configured)" ∧
    (resolvePrices "oil" absentOutcomes "2026-10-12").us.source ≠ "Fallback" ∧
    (resolvePrices "oil" absentOutcomes "2026-10-12").world.source ≠ "Fallback" := by
  refine ⟨rfl, by decide, by decide⟩

/-! ### C2: adapters absent on missing credential and on errors -/

/-- C2: each adapter returns absent without an outbound call when its required
credential is missing (EIA, FRED), and returns absent on a thrown fetch/parse
error, a malformed payload or an empty result set (all four adapters); being
total Lean functions, they never raise to their caller. -/
theorem c2_adapters_absent_on_error :
    (∀ (cache : Cache PricePoint) (now : Int) (net : FetchOutcome EIAPayload)
        (series : String),
      fetchEIAData none cache now net series = (none, false, cache)) ∧
    (∀ (k : String) (cache : Cache PricePoint) (now : Int) (series : String),
      (getCached cache now ("eia_" ++ series)).1 = none →
      (fetchEIAData (some k) cache now .err series).1 = none) ∧
    (∀ (k : String) (cache : Cache PricePoint) (now : Int) (series : String)
        (payload : EIAPayload),
      (getCached cache now ("eia_" ++ series)).1 = none →
      (payload.responseData = none ∨ payload.responseData = some []) →
      (fetchEIAData (some k) cache now (.ok payload) series).1 = none) ∧
    (∀ (cache : Cache PricePoint) (now : Int) (net : FetchOutcome FREDPayload)
        (series : String),
      fetchFREDData none cache now net series = (none, false, cache)) ∧
    (∀ (k : String) (cache : Cache PricePoint) (now : Int) (series : String),
      (getCached cache now ("fred_" ++ series)).1 = none →
      (fetchFREDData (some k) cache now .err series).1 = none) ∧
    (∀ (k : String) (cache : Cache PricePoint) (now : Int) (series : String)
        (payload : FREDPayload),
      (getCached cache now ("fred_" ++ series)).1 = none →
      (payload.observations = none ∨ payload.observations = some []) →
      (fetchFREDData (some k) cache now (.ok payload) series).1 = none) ∧
    (∀ (cache : Cache OwidResult) (now : Int) (indicator currentYear : String),
      (getCached cache now ("owid_" ++ indicator)).1 = none →
      (fetchOWIDData cache now .err indicator currentYear).1 = none) ∧
    (∀ (cache : Cache OwidResult) (now : Int) (payload : OwidPayload)
        (indicator currentYear : String),
      (getCached cache now ("owid_" ++ indicator)).1 = none →
      payload.usa = none →
      (fetchOWIDData cache now (.ok payload) indicator currentYear).1 = none) ∧
    (∀ (cache : Cache PricePoint) (now : Int) (symbol today : String),
      (getCached cache now ("yahoo_" ++ symbol)).1 = none →
      (fetchYahooFinance cache now .err symbol today).1 = none) ∧
    (∀ (cache : Cache PricePoint) (now : Int) (payload : YahooPayload)
        (symbol today : String),
      (getCached cache now ("yahoo_" ++ symbol)).1 = none →
      payload.firstMeta = none →
      (fetchYahooFinance cache now (.ok payload) symbol today).1 = none) := by
  refine ⟨fun _ _ _ _ => rfl, ?_, ?_, fun _ _ _ _ => rfl, ?_, ?_, ?_, ?_, ?_, ?_⟩
  · intro k cache now series hmiss
    simp only [fetchEIAData, hmiss]
    split <;> rfl
  · intro k cache now series payload hmiss hp
    rcases hp with hp | hp <;>
      · simp only [fetchEIAData, hmiss, hp]
        split <;> rfl
  · intro k cache now series hmiss
    simp only [fetchFREDData, hmiss]
  · intro k cache now series payload hmiss hp
    rcases hp with hp | hp <;> simp only [fetchFREDData, hmiss, hp]
  · intro cache now indicator currentYear hmiss
    simp only [fetchOWIDData, hmiss]
  · intro cache now payload indicator currentYear hmiss hp
    simp only [fetchOWIDData, hmiss, hp]
  · intro cache now symbol today hmiss
    simp only [fetchYahooFinance, hmiss]
  · intro cache now payload symbol today hmiss hp
    simp only [fetchYahooFinance, hmiss, hp]

/-- Witness for C2 at concrete inputs: missing key, network error, malformed
and empty payloads. -/
theorem c2_adapters_absent_on_error_witness :
    fetchEIAData none [] 0 .err "PET.RWTC.D" = (none, false, []) ∧
    (getCached ([] : Cache PricePoint) 0 ("eia_" ++ "PET.RWTC.D")).1 = none ∧
    (fetchEIAData (some "k") [] 0 .err "PET.RWTC.D").1 = none ∧
    (fetchEIAData (some "k") [] 0 (.ok ⟨some []⟩) "PET.RWTC.D").1 = none ∧
    fetchFREDData none [] 0 .err "PURANUSDM" = (none, false, []) ∧
    (fetchFREDData (some "k") [] 0 (.ok ⟨none⟩) "PURANUSDM").1 = none ∧
    (fetchOWIDData [] 0 .err "nuclear" "2026").1 = none ∧
    (fetchOWIDData [] 0 (.ok ⟨none⟩) "nuclear" "2026").1 = none ∧
    (fetchYahooFinance [] 0 .err "CL=F" "2026-10-12").1 = none ∧
    (fetchYahooFinance [] 0 (.ok ⟨none⟩) "CL=F" "2026-10-12").1 = none :=
  ⟨c2_adapters_absent_on_error.1 [] 0 .err "PET.RWTC.D",
   rfl,
   c2_adapters_absent_on_error.2.1 "k" [] 0 "PET.RWTC.D" rfl,
   c2_adapters_absent_on_error.2.2.1 "k" [] 0 "PET.RWTC.D" ⟨some []⟩ rfl (Or.inr rfl),
   c2_adapters_absent_on_error.2.2.2.1 [] 0 .err "PURANUSDM",
   c2_adapters_absent_on_error.2.2.2.2.2.1 "k" [] 0 "PURANUSDM" ⟨none⟩ rfl (Or.inl rfl),
   c2_adapters_absent_on_error.2.2.2.2.2.2.1 [] 0 "nuclear" "2026" rfl,
   c2_adapters_absent_on_error.2.2.2.2.2.2.2.1 [] 0 ⟨none⟩ "nuclear" "2026" rfl rfl,
   c2_adapters_absent_on_error.2.2.2.2.2.2.2.2.1 [] 0 "CL=F" "2026-10-12" rfl,
   c2_adapters_absent_on_error.2.2.2.2.2.2.2.2.2 [] 0 ⟨none⟩ "CL=F" "2026-10-12" rfl rfl⟩

/-! ### C3: derived world prices -/

/-- C3 (amended): whenever the US slot resolves, the derived world price is
usValue * 3.5 for natural gas with the synthetic label 'Calculated from US
price' and the US date carried forward; for nuclear, solar and renewables the
world value is the US LCOE times 1.1 / 1.15 / 1.15 with the same date, but the
source label is the provider's (the OWID result's label), not the synthetic
one. -/
theorem c3_derived_world_prices :
    (∀ (o : Outcomes) (now : String) (p : PricePoint),
      (resolveSwitch "natural-gas" o).1 = some p →
      (resolvePrices "natural-gas" o now).us = ⟨some p.value, p.date, p.source⟩ ∧
      (resolvePrices "natural-gas" o now).world =
        ⟨some (p.value * 3.5), p.date, "Calculated from US price"⟩) ∧
    (∀ (o : Outcomes) (now : String) (w : OwidResult),
      o.owidNuclear = some w →
      (resolvePrices "nuclear" o now).us = ⟨some w.nuclear_lcoe, w.date, w.source⟩ ∧
      (resolvePrices "nuclear" o now).world =
        ⟨some (w.nuclear_lcoe * 1.1), w.date, w.source⟩) ∧
    (∀ (o : Outcomes) (now : String) (w : OwidResult),
      o.owidSolar = some w →
      (resolvePrices "solar" o now).us = ⟨some w.solar_lcoe, w.date, w.source⟩ ∧
      (resolvePrices "solar" o now).world =
        ⟨some (w.solar_lcoe * 1.15), w.date, w.source⟩) ∧
    (∀ (o : Outcomes) (now : String) (w : OwidResult),
      o.owidWind = some w →
      (resolvePrices "renewables" o now).us = ⟨some w.wind_lcoe, w.date, w.source⟩ ∧
      (resolvePrices "renewables" o now).world =
        ⟨some (w.wind_lcoe * 1.15), w.date, w.source⟩) := by
  refine ⟨?_, ?_, ?_, ?_⟩
  · intro o now p h
    have hw : (resolveSwitch "natural-gas" o).2.1 =
        some ⟨p.value * 3.5, p.date, "Calculated from US price"⟩ := by
      rw [resolveSwitch_gas_eq] at h ⊢
      rcases h1 : o.eiaNatGas with _ | r <;> rcases h2 : o.yahooNatGas with _ | r2 <;>
        simp only [h1, h2] at h ⊢ <;> simp_all
    exact ⟨resolvePrices_us_of_some _ _ _ _ h, resolvePrices_world_of_some _ _ _ _ hw⟩
  · intro o now w h
    have hu : (resolveSwitch "nuclear" o).1 = some ⟨w.nuclear_lcoe, w.date, w.source⟩ := by
      rw [resolveSwitch_nuclear_eq]
      rcases h2 : o.fredUranium with _ | f <;> simp only [h, h2]
    have hw : (resolveSwitch "nuclear" o).2.1 =
        some ⟨w.nuclear_lcoe * 1.1, w.date, w.source⟩ := by
      rw [resolveSwitch_nuclear_eq]
      rcases h2 : o.fredUranium with _ | f <;> simp only [h, h2]
    exact ⟨resolvePrices_us_of_some _ _ _ _ hu, resolvePrices_world_of_some _ _ _ _ hw⟩
  · intro o now w h
    have hu : (resolveSwitch "solar" o).1 = some ⟨w.solar_lcoe, w.date, w.source⟩ := by
      rw [resolveSwitch_solar_eq]; simp only [h]
    have hw : (resolveSwitch "solar" o).2.1 =
        some ⟨w.solar_lcoe * 1.15, w.date, w.source⟩ := by
      rw [resolveSwitch_solar_eq]; simp only [h]
    exact ⟨resolvePrices_us_of_some _ _ _ _ hu, resolvePrices_world_of_some _ _ _ _ hw⟩
  · intro o now w h
    have hu : (resolveSwitch "renewables" o).1 = some ⟨w.wind_lcoe, w.date, w.source⟩ := by
      rw [resolveSwitch_renewables_eq]; simp only [h]
    have hw : (resolveSwitch "renewables" o).2.1 =
        some ⟨w.wind_lcoe * 1.15, w.date, w.source⟩ := by
      rw [resolveSwitch_renewables_eq]; simp only [h]
    exact ⟨resolvePrices_us_of_some _ _ _ _ hu, resolvePrices_world_of_some _ _ _ _ hw⟩

/-- Witness for C3: a concrete natural-gas resolution via EIA at price 3. -/
theorem c3_derived_world_prices_witness :
    (resolveSwitch "natural-gas" gasOutcomes).1 = some gasPoint ∧
    (resolvePrices "natural-gas" gasOutcomes "2026-10-12").us =
      ⟨some gasPoint.value, gasPoint.date, gasPoint.source⟩ ∧
    (resolvePrices "natural-gas" gasOutcomes "2026-10-12").world =
      ⟨some (gasPoint.value * 3.5), gasPoint.date, "Calculated from US price"⟩ :=
  ⟨rfl, (c3_derived_world_prices.1 gasOutcomes "2026-10-12" gasPoint rfl).1,
   (c3_derived_world_prices.1 gasOutcomes "2026-10-12" gasPoint rfl).2⟩

/-- C3 counterexample to the claim as stated: in the nuclear case the derived
world PricePoint bears the provider's label, not 'Calculated from US price'. -/
theorem c3_counterexample_nuclear_label :
    nuclearOutcomes.owidNuclear = some owidSample ∧
    (resolvePrices "nuclear" nuclearOutcomes "2026-10-12").world.source =
      "Our World in Data" ∧
    (resolvePrices "nuclear" nuclearOutcomes "2026-10-12").world.source ≠
      "Calculated from US price" :=
  ⟨rfl, rfl, by decide⟩

/-! ### C4: quote-level isFallback -/

/-- C4: the quote-level isFallback flag is true exactly when neither slot
received an adapter or derived result (both slots filled from the Fallback
Table); when at least one slot succeeded, isFallback is false and every
contributing source label still appears in dataSources. -/
theorem c4_isFallback_iff_both_slots (source : String) (o : Outcomes) (now : String) :
    ((resolvePrices source o now).isFallback = true ↔
      (resolveSwitch source o).1 = none ∧ (resolveSwitch source o).2.1 = none) ∧
    ((resolveSwitch source o).1.isSome = true ∨ (resolveSwitch source o).2.1.isSome = true →
      (resolvePrices source o now).isFallback = false ∧
      ∀ l ∈ contributedSources source o, l ∈ (resolvePrices source o now).dataSources) := by
  constructor
  · simp [resolvePrices, Option.isNone_iff_eq_none]
  · intro h
    constructor
    · rcases h with h | h <;>
        · obtain ⟨x, hx⟩ := Option.isSome_iff_exists.mp h
          simp [resolvePrices, hx]
    · intro l hl
      have h2 := mem_contributed_mem_switch source o l hl
      have hne : (resolveSwitch source o).2.2.isEmpty = false := by
        cases hs : (resolveSwitch source o).2.2
        · rw [hs] at h2; cases h2
        · rfl
      simpa [resolvePrices, hne] using h2

/-- Witness for C4: an oil request where only the Brent world fetch succeeds —
isFallback is false and the Brent label is listed. -/
theorem c4_isFallback_iff_both_slots_witness :
    ((resolveSwitch "oil" brentOnlyOutcomes).1.isSome = true ∨
      (resolveSwitch "oil" brentOnlyOutcomes).2.1.isSome = true) ∧
    ((resolvePrices "oil" brentOnlyOutcomes "2026-10-12").isFallback = false ∧
      ∀ l ∈ contributedSources "oil" brentOnlyOutcomes,
        l ∈ (resolvePrices "oil" brentOnlyOutcomes "2026-10-12").dataSources) :=
  ⟨Or.inr rfl,
   (c4_isFallback_iff_both_slots "oil" brentOnlyOutcomes "2026-10-12").2 (Or.inr rfl)⟩

/-! ### C5: unrecognized commodity key -/

/-- The server's fallback table has rows only for the six known keys. -/
theorem fallbackPricesLookup_eq_none (source : String)
    (h : source ∉ ["oil", "natural-gas", "nuclear", "solar", "renewables", "coal"]) :
    fallbackPricesLookup source = none := by
  simp only [List.mem_cons, List.not_mem_nil, or_false, not_or] at h
  obtain ⟨h1, h2, h3, h4, h5, h6⟩ := h
  simp [fallbackPricesLookup, h1, h2, h3, h4, h5, h6]

/-- The client's fallback table has rows only for the six known keys. -/
theorem clientFallbackLookup_eq_none (source : String)
    (h : source ∉ ["oil", "natural-gas", "nuclear", "solar", "renewables", "coal"]) :
    clientFallbackLookup source = none := by
  simp only [List.mem_cons, List.not_mem_nil, or_false, not_or] at h
  obtain ⟨h1, h2, h3, h4, h5, h6⟩ := h
  simp [clientFallbackLookup, h1, h2, h3, h4, h5, h6]

/-- C5 (amended): for an unrecognized commodity key the server's
getFallbackData returns no price values or units (spreading undefined), so the
resolved quote's us and world values are undefined rather than the oil
entry's; only the client-side updateWithFallbackData substitutes the oil
entry's values 74.50 / 78.80, labeled 'Fallback'. -/
theorem c5_unknown_key (source : String) (now : String)
    (h : source ∉ ["oil", "natural-gas", "nuclear", "solar", "renewables", "coal"]) :
    (getFallbackData source now).us = none ∧
    (getFallbackData source now).world = none ∧
    (getFallbackData source now).usUnit = none ∧
    (getFallbackData source now).worldUnit = none ∧
    (resolvePrices source absentOutcomes now).us.value = none ∧
    (resolvePrices source absentOutcomes now).world.value = none ∧
    updateWithFallbackData source now =
      (⟨some 74.50, now, "Fallback"⟩, ⟨some 78.80, now, "Fallback"⟩) := by
  have hf := fallbackPricesLookup_eq_none source h
  have hc := clientFallbackLookup_eq_none source h
  refine ⟨?_, ?_, ?_, ?_, ?_, ?_, ?_⟩ <;>
    simp [getFallbackData, hf, resolvePrices, resolveSwitch_absent,
      updateWithFallbackData, hc]

/-- Witness for C5 at the unrecognized key 'hydrogen'. -/
theorem c5_unknown_key_witness :
    ("hydrogen" : String) ∉ ["oil", "natural-gas", "nuclear", "solar", "renewables", "coal"] ∧
    ((getFallbackData "hydrogen" "2026-10-12").us = none ∧
     (getFallbackData "hydrogen" "2026-10-12").world = none ∧
     (getFallbackData "hydrogen" "2026-10-12").usUnit = none ∧
     (getFallbackData "hydrogen" "2026-10-12").worldUnit = none ∧
     (resolvePrices "hydrogen" absentOutcomes "2026-10-12").us.value = none ∧
     (resolvePrices "hydrogen" absentOutcomes "2026-10-12").world.value = none ∧
     updateWithFallbackData "hydrogen" "2026-10-12" =
       (⟨some 74.50, "2026-10-12", "Fallback"⟩, ⟨some 78.80, "2026-10-12", "Fallback"⟩)) :=
  ⟨by decide, c5_unknown_key "hydrogen" "2026-10-12" (by decide)⟩

/-- C5 counterexample to the claim as stated: the server's Fallback Table
lookup at an unrecognized key yields an undefined price shape, not the oil
entry's shape — the resolved quote's us value is undefined. -/
theorem c5_counterexample_server_no_default :
    (getFallbackData "plutonium" "2026-10-12").us = none ∧
    (getFallbackData "plutonium" "2026-10-12").world = none ∧
    (resolvePrices "plutonium" absentOutcomes "2026-10-12").us.value = none ∧
    (resolvePrices "plutonium" absentOutcomes "2026-10-12").us.value ≠ some 74.50 := by
  refine ⟨rfl, rfl, rfl, ?_⟩
  intro hcon
  rw [show (resolvePrices "plutonium" absentOutcomes "2026-10-12").us.value = none
    from rfl] at hcon
  exact Option.noConfusion hcon

/-! ### C7: dataSources lists exactly the contributors -/

/-- C7 (amended): dataSources equals the contributing source labels — except
that in the nuclear case a successful FRED uranium fetch is also listed even
though its value fills no slot — with the literal list ['Fallback estimates']
substituted when nothing was listed. -/
theorem c7_dataSources_eq_listed (source : String) (o : Outcomes) (now : String) :
    (resolvePrices source o now).dataSources =
      (if (listedSources source o).isEmpty then ["Fallback estimates"]
       else listedSources source o) := by
  simp [resolvePrices, switch_sources_eq]

/-- C7 counterexample to the claim as stated: on a nuclear request where only
the FRED uranium fetch succeeds, 'FRED' is listed in dataSources although no
source contributed a value to either slot (the quote is a full fallback). -/
theorem c7_counterexample_fred_listed :
    (resolvePrices "nuclear" fredOnlyOutcomes "2026-10-12").dataSources = ["FRED"] ∧
    contributedSources "nuclear" fredOnlyOutcomes = [] ∧
    (resolvePrices "nuclear" fredOnlyOutcomes "2026-10-12").isFallback = true :=
  ⟨rfl, rfl, rfl⟩

end EnergyApp
